import Mathlib

/-!
Shallow embedding of the listener session state machine of rnsh
(src/rnsh/session.py).  External collaborators (Outlet transport, reliable
Messenger, child-process handle) are modelled as data read by the session
plus an effect trace recording the calls the session makes on them.
Scheduled callbacks (protocol-timeout watchdogs, the prune step) are
reified as effects carrying exactly the data their Python closures capture,
and the functions the scheduler would later invoke are modelled as explicit
functions on session state.
-/

namespace Rnsh

/-- Session states, `LSState` in session.py (lines 35-41). -/
inductive LSState
  | LSSTATE_WAIT_IDENT
  | LSSTATE_WAIT_VERS
  | LSSTATE_WAIT_CMD
  | LSSTATE_RUNNING
  | LSSTATE_ERROR
  | LSSTATE_TEARDOWN
deriving DecidableEq

/-- Python enum attribute `.name` for `LSState` values. -/
def LSState.pyName : LSState → String
  | .LSSTATE_WAIT_IDENT => "LSSTATE_WAIT_IDENT"
  | .LSSTATE_WAIT_VERS => "LSSTATE_WAIT_VERS"
  | .LSSTATE_WAIT_CMD => "LSSTATE_WAIT_CMD"
  | .LSSTATE_RUNNING => "LSSTATE_RUNNING"
  | .LSSTATE_ERROR => "LSSTATE_ERROR"
  | .LSSTATE_TEARDOWN => "LSSTATE_TEARDOWN"

/-- Modelled from the spec: the stream tag for stdin from the protocol
module (rnsh/protocol.py is not under src); only the identity and
distinctness of the three tags matter to the session code. -/
def STREAM_ID_STDIN : Nat := 0

/-- Modelled from the spec: the stream tag for stdout (protocol module not
under src). -/
def STREAM_ID_STDOUT : Nat := 1

/-- Modelled from the spec: the stream tag for stderr (protocol module not
under src). -/
def STREAM_ID_STDERR : Nat := 2

/-- Modelled from the spec: the protocol version constant from the protocol
module (not under src); the session only compares the peer's value with it
for equality. -/
def PROTOCOL_VERSION : Nat := 1

/-- Message taxonomy consumed and produced by the session (see spec section 6;
the concrete classes live in rnsh/protocol.py, outside src, but every field
the session code reads appears here).  The constructor name
`ExecuteCommandMesssage` keeps the source's spelling. -/
inductive Message
  | VersionInfoMessage (sw_version : String) (protocol_version : Nat)
  | ExecuteCommandMesssage (cmdline : Option (List String))
      (pipe_stdin pipe_stdout pipe_stderr : Bool) (tcflags : Option (List Nat))
      (term : Option String) (rows cols hpix vpix : Int)
  | WindowSizeMessage (rows cols hpix vpix : Int)
  | StreamDataMessage (stream_id : Nat) (data : List Nat) (eof : Bool)
  | NoopMessage
  | CommandExitedMessage (return_code : Int)
  | ErrorMessage (msg : String) (fatal : Bool)
deriving DecidableEq

/-- Modelled from the spec: the default-constructed version-info reply
`protocol.VersionInfoMessage()` sent at session.py line 317 (defaults live in
the protocol module, not under src). -/
def versionInfoReply : Message := Message.VersionInfoMessage "rnsh" PROTOCOL_VERSION

/-- Remote peer identity; the session code reads only its `hash`. -/
structure Identity where
  hash : Nat
deriving DecidableEq

/-- The fields of `process.CallbackSubprocess` the session code reads. -/
structure CallbackSubprocess where
  stdout_eof : Bool
  stderr_eof : Bool
  running : Bool
deriving DecidableEq

/-- The fields of the Outlet the session code reads: maximum message size
and round-trip-time estimate.  Python's float rtt is modelled as a
rational. -/
structure Outlet where
  mdu : Nat
  rtt : Rat
deriving DecidableEq

/-- Instance state of `ListenerSession` (session.py lines 81-103).
`packet_callback_set` records the `outlet.set_packet_received_callback`
registration performed at line 186. -/
structure Session where
  outlet : Outlet
  state : Option LSState := none
  remote_identity : Option Identity := none
  term : Option String := none
  stdin_is_pipe : Bool := false
  stdout_is_pipe : Bool := false
  stderr_is_pipe : Bool := false
  tcflags : Option (List Nat) := none
  cmdline : Option (List String) := none
  rows : Int := 0
  cols : Int := 0
  hpix : Int := 0
  vpix : Int := 0
  stdout_buf : List Nat := []
  stdout_eof_sent : Bool := false
  stderr_buf : List Nat := []
  stderr_eof_sent : Bool := false
  return_code : Option Int := none
  return_code_sent : Bool := false
  process : Option CallbackSubprocess := none
  packet_callback_set : Bool := false
deriving DecidableEq

/-- Process-wide (class-level) configuration of `ListenerSession`
(session.py lines 70-76).  `default_command` is a shared mutable Python
list: functions that may mutate it in place return its new value. -/
structure Config where
  allow_all : Bool
  allowed_identity_hashes : List Nat
  allow_remote_command : Bool
  default_command : List String
  remote_cmd_as_args : Bool
deriving DecidableEq

/-- The guard closures armed with `_check_protocol_timeout` all have the
shape `lambda: self.state == c` for a captured value `c` (session.py lines
116 and 239); the captured value is the whole closure state. -/
inductive GuardCond
  | stateEq (st : Option LSState)
deriving DecidableEq

/-- Evaluate a watchdog guard closure against the current session. -/
def evalGuard : GuardCond → Session → Bool
  | .stateEq st, s => s.state == st

/-- Calls the session makes on its collaborators, in program order:
Messenger sends, scheduled `_check_protocol_timeout` watchdogs, the
scheduled `_prune`, child-process operations and Outlet teardown. -/
inductive Effect
  | sendMsg (m : Message)
  | armCheck (guard : GuardCond) (name : String) (delay : Rat)
  | schedulePrune (delay : Rat)
  | terminateProcess
  | startProcess (argv : List String)
  | setWinsize (rows cols hpix vpix : Int)
  | writeStdin (data : List Nat)
  | closeStdin
  | teardownOutlet
deriving DecidableEq

/-- Python builtin `max` on two floats, modelled on rationals. -/
def pyMax (a b : Rat) : Rat := if a ≤ b then b else a

/-- Python slice `l[:k]` for a possibly negative `k` (as in
`self.stderr_buf[:mdu]` where `mdu = outlet.mdu - 16` may be negative). -/
def pyTake {α : Type} (k : Int) (l : List α) : List α :=
  if 0 ≤ k then l.take k.toNat else l.take (l.length - (-k).toNat)

/-- Python slice `l[k:]` for a possibly negative `k`. -/
def pyDrop {α : Type} (k : Int) (l : List α) : List α :=
  if 0 ≤ k then l.drop k.toNat else l.drop (l.length - (-k).toNat)

/-- Python truthiness of `cmdline and len(cmdline) > 0` for an optional
list (None and the empty list are falsy). -/
def cmdlineTruthy : Option (List String) → Bool
  | none => false
  | some l => decide (0 < l.length)

/-- `_terminate_process` (session.py lines 246-249): terminate the child
process if one exists and is running; exceptions suppressed. -/
def _terminate_process (s : Session) : List Effect :=
  match s.process with
  | some p => if p.running then [Effect.terminateProcess] else []
  | none => []

/-- `terminate` (session.py lines 136-144): best-effort send of a fatal
error message unless the error string is falsy or the state is already
TEARDOWN, then set state to ERROR, kill the child process, and schedule
`_prune` after `max(rtt * 3, 5)`. -/
def terminate (s : Session) (error : Option String) : Session × List Effect :=
  let errEffs : List Effect :=
    match error with
    | some e =>
        if e ≠ "" ∧ s.state ≠ some LSState.LSSTATE_TEARDOWN then
          [Effect.sendMsg (Message.ErrorMessage e true)]
        else []
    | none => []
  let s1 : Session := { s with state := some LSState.LSSTATE_ERROR }
  (s1, errEffs ++ _terminate_process s1 ++ [Effect.schedulePrune (pyMax (s1.outlet.rtt * 3) 5)])

/-- `_prune` (session.py lines 146-151): set state to TEARDOWN, remove the
session from the registry (a ValueError from removing an absent element is
suppressed, which `List.erase` models), and tear down the Outlet. -/
def _prune (s : Session) (sessions : List Session) :
    Session × List Session × List Effect :=
  let s1 : Session := { s with state := some LSState.LSSTATE_TEARDOWN }
  (s1, sessions.erase s1, [Effect.teardownOutlet])

/-- `_protocol_error` (session.py lines 130-131). -/
def _protocol_error (s : Session) (name : String) : Session × List Effect :=
  terminate s (some ("Protocol error (" ++ name ++ ")"))

/-- `_protocol_timeout_error` (session.py lines 133-134). -/
def _protocol_timeout_error (s : Session) (name : String) : Session × List Effect :=
  terminate s (some ("Protocol timeout error: " ++ name))

/-- `_check_protocol_timeout` (session.py lines 153-160): when a scheduled
watchdog fires, raise a protocol-timeout error unless the state is
TEARDOWN or the guard closure evaluates false. -/
def _check_protocol_timeout (s : Session) (fail_condition : GuardCond)
    (name : String) : Session × List Effect :=
  let timeout := (s.state ≠ some LSState.LSSTATE_TEARDOWN) ∧ evalGuard fail_condition s
  if timeout then _protocol_timeout_error s name else (s, [])

/-- `_set_state` (session.py lines 110-116): record the new state and,
unless the timeout factor is None, arm a watchdog whose guard closure is
`lambda: self.state == orig_state` where `orig_state` is the state read
before the assignment, with delay `max(rtt * factor, max(rtt * 2, 10))`.
All call sites in session.py use the default factor 10. -/
def _set_state (s : Session) (state : LSState) (timeout_factor : Option Rat) :
    Session × List Effect :=
  let orig_state := s.state
  let s1 : Session := { s with state := some state }
  match timeout_factor with
  | some f =>
      let timeout := pyMax (s.outlet.rtt * f) (pyMax (s.outlet.rtt * 2) 10)
      (s1, [Effect.armCheck (GuardCond.stateEq orig_state) state.pyName timeout])
  | none => (s1, [])

/-- `_initiator_identified` (session.py lines 173-187).  `outlet_matches`
models the `outlet != self.outlet` early return.  Note that neither the
wrong-state branch nor the disallowed-identity branch returns early in the
source: the handler continues, records the identity, registers the
packet-received callback and moves to WAIT_VERS. -/
def _initiator_identified (cfg : Config) (s : Session) (outlet_matches : Bool)
    (identity : Identity) : Session × List Effect :=
  if ¬ outlet_matches then (s, [])
  else
    let r1 : Session × List Effect :=
      if s.state ≠ some LSState.LSSTATE_WAIT_IDENT then
        _protocol_error s LSState.LSSTATE_WAIT_IDENT.pyName
      else (s, [])
    let r2 : Session × List Effect :=
      if ¬ cfg.allow_all ∧ identity.hash ∉ cfg.allowed_identity_hashes then
        terminate r1.1 (some "Identity is not allowed.")
      else (r1.1, [])
    let s3 : Session :=
      { r2.1 with remote_identity := some identity, packet_callback_set := true }
    let r3 := _set_state s3 LSState.LSSTATE_WAIT_VERS (some 10)
    (r3.1, r1.2 ++ r2.2 ++ r3.2)

/-- Environment of one `pump` call: what `messenger.is_outlet_ready`
returns, and whether `messenger.send` succeeds (otherwise it raises). -/
structure PumpEnv where
  is_outlet_ready : Bool
  send_ok : Bool
deriving DecidableEq

/-- The body of `pump` inside its try block (session.py lines 205-241).
An escaping exception is an `Except.error` carrying the partially mutated
session (buffer reassignments before a raising call persist) and the
exception text; raising sites are the `self.process` attribute reads when
no process exists and the `messenger.send` calls. -/
def pumpBody (env : PumpEnv) (s : Session) :
    Except (Session × String) (Session × List Effect × Bool) :=
  if s.state ≠ some LSState.LSSTATE_RUNNING then .ok (s, [], false)
  else if ¬ env.is_outlet_ready then .ok (s, [], false)
  else if 0 < s.stderr_buf.length then
    let mdu : Int := (s.outlet.mdu : Int) - 16
    let data := pyTake mdu s.stderr_buf
    let s1 : Session := { s with stderr_buf := pyDrop mdu s.stderr_buf }
    match s1.process with
    | none => .error (s1, "AttributeError: NoneType process")
    | some p =>
      let send_eof := p.stderr_eof ∧ data.length = 0 ∧ ¬ s1.stderr_eof_sent
      let s2 : Session := { s1 with stderr_eof_sent := s1.stderr_eof_sent ∨ send_eof }
      let msg := Message.StreamDataMessage STREAM_ID_STDERR data (decide send_eof)
      if ¬ env.send_ok then .error (s2, "send raised")
      else
        let s3 : Session :=
          if send_eof then { s2 with stderr_eof_sent := true } else s2
        .ok (s3, [Effect.sendMsg msg], true)
  else if 0 < s.stdout_buf.length then
    let mdu : Int := (s.outlet.mdu : Int) - 16
    let data := pyTake mdu s.stdout_buf
    let s1 : Session := { s with stdout_buf := pyDrop mdu s.stdout_buf }
    match s1.process with
    | none => .error (s1, "AttributeError: NoneType process")
    | some p =>
      let send_eof := p.stdout_eof ∧ data.length = 0 ∧ ¬ s1.stdout_eof_sent
      let s2 : Session := { s1 with stdout_eof_sent := s1.stdout_eof_sent ∨ send_eof }
      let msg := Message.StreamDataMessage STREAM_ID_STDOUT data (decide send_eof)
      if ¬ env.send_ok then .error (s2, "send raised")
      else
        let s3 : Session :=
          if send_eof then { s2 with stdout_eof_sent := true } else s2
        .ok (s3, [Effect.sendMsg msg], true)
  else
    match s.return_code with
    | some rc =>
        if ¬ s.return_code_sent then
          let msg := Message.CommandExitedMessage rc
          if ¬ env.send_ok then .error (s, "send raised")
          else
            let s1 : Session := { s with return_code_sent := true }
            .ok (s1,
              [Effect.sendMsg msg,
               Effect.armCheck (GuardCond.stateEq (some LSState.LSSTATE_RUNNING))
                 "CommandExitedMessage" (pyMax (s.outlet.rtt * 5) 10)],
              false)
        else .ok (s, [], false)
    | none => .ok (s, [], false)

/-- `pump` (session.py lines 204-244): the body runs inside
`try ... except Exception`, and after a caught exception the function
falls through to `return False`. -/
def pump (env : PumpEnv) (s : Session) : Session × List Effect × Bool :=
  match pumpBody env s with
  | .ok r => r
  | .error e => (e.1, [], false)

/-- `_set_window_size` (session.py lines 294-300): record the geometry and
forward it to the process; the call is wrapped in suppress(Exception), so
when no process exists the AttributeError is swallowed and no call is
made. -/
def _set_window_size (s : Session) (rows cols hpix vpix : Int) :
    Session × List Effect :=
  let s1 : Session := { s with rows := rows, cols := cols, hpix := hpix, vpix := vpix }
  (s1, if s1.process.isSome then [Effect.setWinsize rows cols hpix vpix] else [])

/-- `_received_stdin` (session.py lines 302-306). -/
def _received_stdin (s : Session) (data : List Nat) (eof : Bool) :
    Session × List Effect :=
  (s, (if 0 < data.length then [Effect.writeStdin data] else []) ++
      (if eof then [Effect.closeStdin] else []))

/-- `_start_cmd` (session.py lines 251-292).  The assignment
`self.cmdline = self.default_command` aliases the shared class-level list,
so the later in-place `self.cmdline.extend(cmdline)` mutates the shared
default; the returned `Config` carries the shared list's resulting value.
`start_ok` models whether constructing and starting the
CallbackSubprocess (the try block at lines 277-289) succeeds. -/
def _start_cmd (cfg : Config) (s : Session) (cmdline : Option (List String))
    (pipe_stdin pipe_stdout pipe_stderr : Bool) (tcflags : Option (List Nat))
    (term : Option String) (rows cols hpix vpix : Int) (start_ok : Bool) :
    Session × Config × List Effect :=
  let s : Session := { s with cmdline := some cfg.default_command }
  if ¬ cfg.allow_remote_command ∧ cmdlineTruthy cmdline then
    let r := terminate s (some "Remote command line not allowed by listener")
    (r.1, cfg, r.2)
  else
    let sc : Session × Config :=
      if cfg.remote_cmd_as_args ∧ cmdlineTruthy cmdline then
        let newCmd := cfg.default_command ++ cmdline.getD []
        ({ s with cmdline := some newCmd }, { cfg with default_command := newCmd })
      else if cmdlineTruthy cmdline then
        ({ s with cmdline := cmdline }, cfg)
      else (s, cfg)
    let s := sc.1
    let cfg := sc.2
    let s : Session :=
      { s with stdin_is_pipe := pipe_stdin, stdout_is_pipe := pipe_stdout,
               stderr_is_pipe := pipe_stderr, tcflags := tcflags, term := term }
    if start_ok then
      let s : Session :=
        { s with process := some { stdout_eof := false, stderr_eof := false, running := true } }
      let r := _set_window_size s rows cols hpix vpix
      (r.1, cfg, Effect.startProcess (s.cmdline.getD []) :: r.2)
    else
      let r := terminate s (some "Unable to start process")
      (r.1, cfg, r.2)

/-- `_handle_message` (session.py lines 308-346).  In the RUNNING branch
the source has no inner else: a message that is none of window-size,
stream-data or no-op falls through and is ignored.  The outermost else
(protocol error "unexpected message") is reached only for states outside
the five enumerated ones (the initial None). -/
def _handle_message (cfg : Config) (s : Session) (m : Message) (start_ok : Bool) :
    Session × Config × List Effect :=
  if s.state = some LSState.LSSTATE_WAIT_VERS then
    match m with
    | Message.VersionInfoMessage _ pv =>
        if pv ≠ PROTOCOL_VERSION then
          let r := terminate s (some "Incompatible protocol")
          (r.1, cfg, r.2)
        else
          let r := _set_state s LSState.LSSTATE_WAIT_CMD (some 10)
          (r.1, cfg, Effect.sendMsg versionInfoReply :: r.2)
    | _ =>
        let r := _protocol_error s LSState.LSSTATE_WAIT_VERS.pyName
        (r.1, cfg, r.2)
  else if s.state = some LSState.LSSTATE_WAIT_CMD then
    match m with
    | Message.ExecuteCommandMesssage cmdline pin pout perr tcflags term rows cols hpix vpix =>
        let r1 := _set_state s LSState.LSSTATE_RUNNING (some 10)
        let r2 := _start_cmd cfg r1.1 cmdline pin pout perr tcflags term rows cols hpix vpix start_ok
        (r2.1, r2.2.1, r1.2 ++ r2.2.2)
    | _ =>
        let r := _protocol_error s LSState.LSSTATE_WAIT_CMD.pyName
        (r.1, cfg, r.2)
  else if s.state = some LSState.LSSTATE_RUNNING then
    match m with
    | Message.WindowSizeMessage rows cols hpix vpix =>
        let r := _set_window_size s rows cols hpix vpix
        (r.1, cfg, r.2)
    | Message.StreamDataMessage sid data eof =>
        if sid ≠ STREAM_ID_STDIN then
          let r := _protocol_error s LSState.LSSTATE_RUNNING.pyName
          (r.1, cfg, r.2)
        else
          let r := _received_stdin s data eof
          (r.1, cfg, r.2)
    | Message.NoopMessage => (s, cfg, [Effect.sendMsg Message.NoopMessage])
    | _ => (s, cfg, [])
  else if s.state = some LSState.LSSTATE_ERROR ∨ s.state = some LSState.LSSTATE_TEARDOWN then
    (s, cfg, [])
  else
    let r := _protocol_error s "unexpected message"
    (r.1, cfg, r.2)

/-- Is an effect a Messenger send? -/
def isSendEffect : Effect → Bool
  | Effect.sendMsg _ => true
  | _ => false

/-- Number of Messenger sends in an effect trace. -/
def sendCount (effs : List Effect) : Nat := (effs.filter isSendEffect).length

/-- Does the trace send a stream-data chunk tagged stdout? -/
def sendsStdoutChunk (effs : List Effect) : Bool :=
  effs.any fun e =>
    match e with
    | Effect.sendMsg (Message.StreamDataMessage sid _ _) => sid == STREAM_ID_STDOUT
    | _ => false

/-- Does the trace send any stream-data chunk (stdout or stderr)? -/
def sendsStreamChunk (effs : List Effect) : Bool :=
  effs.any fun e =>
    match e with
    | Effect.sendMsg (Message.StreamDataMessage _ _ _) => true
    | _ => false

/-- Message types the RUNNING branch of `_handle_message` recognizes
(window-size, stream-data, no-op). -/
def runningHandles : Message → Bool
  | Message.WindowSizeMessage _ _ _ _ => true
  | Message.StreamDataMessage _ _ _ => true
  | Message.NoopMessage => true
  | _ => false

/-- A concrete Outlet used for concrete runs: generous MDU, zero measured
rtt (so every watchdog delay is its floor value). -/
def outlet0 : Outlet := { mdu := 500, rtt := 0 }

/-- Pump environment: outlet ready, sends succeed. -/
def env0 : PumpEnv := { is_outlet_ready := true, send_ok := true }

/-- Pump environment: outlet ready, Messenger send raises. -/
def envSendFail : PumpEnv := { is_outlet_ready := true, send_ok := false }

/-- Pump environment: Messenger reports the outlet not ready. -/
def envNotReady : PumpEnv := { is_outlet_ready := false, send_ok := true }

/-- A freshly identified-waiting session. -/
def sessionIdent : Session := { outlet := outlet0, state := some LSState.LSSTATE_WAIT_IDENT }

/-- A RUNNING session over a 256-byte-MDU link whose child has reported
stderr end-of-stream with one byte still buffered. -/
def sessionStderr1 : Session :=
  { outlet := { mdu := 256, rtt := 0 },
    state := some LSState.LSSTATE_RUNNING,
    stderr_buf := [97],
    process := some { stdout_eof := false, stderr_eof := true, running := true } }

/-- Configuration allowing remote commands with the append-as-arguments
policy. -/
def cfgArgs : Config :=
  { allow_all := false, allowed_identity_hashes := [], allow_remote_command := true,
    default_command := ["bash"], remote_cmd_as_args := true }

/-- A RUNNING session with a recorded remote identity. -/
def sessionRun1 : Session :=
  { outlet := outlet0, state := some LSState.LSSTATE_RUNNING, remote_identity := some ⟨1⟩ }

/-- Restrictive configuration: empty allow-list, allow-all off, remote
commands disallowed. -/
def cfgStrict : Config :=
  { allow_all := false, allowed_identity_hashes := [], allow_remote_command := false,
    default_command := ["bash"], remote_cmd_as_args := false }

/-- A bare RUNNING session (no buffers, no process, no return code). -/
def sessionRun0 : Session := { outlet := outlet0, state := some LSState.LSSTATE_RUNNING }

/-- A session already in ERROR state. -/
def sessionErr : Session := { outlet := outlet0, state := some LSState.LSSTATE_ERROR }

/-- A session already in TEARDOWN state. -/
def sessionDown : Session := { outlet := outlet0, state := some LSState.LSSTATE_TEARDOWN }

/-- A RUNNING session with a known, unsent return code and drained
buffers. -/
def sessionExited : Session :=
  { outlet := outlet0, state := some LSState.LSSTATE_RUNNING, return_code := some 0 }

/-- A session waiting for the execute-command message. -/
def sessionCmd : Session :=
  { outlet := outlet0, state := some LSState.LSSTATE_WAIT_CMD, remote_identity := some ⟨1⟩ }

/-- A WAIT_CMD session that nonetheless has a byte of buffered stderr (used
to exercise several pump guards at once). -/
def sessionCmdBuf : Session :=
  { outlet := outlet0, state := some LSState.LSSTATE_WAIT_CMD, stderr_buf := [1] }

/-- C1 (code bug evidence): entering WAIT_VERS from WAIT_IDENT arms a
watchdog whose guard closure compares the state to the state read before
the transition (WAIT_IDENT), not the state just entered; so when that
watchdog fires with the state still WAIT_VERS (and not TEARDOWN), the
guard is false, no protocol-timeout error is raised, no error message is
sent and the session does not terminate — contradicting the claim. -/
theorem set_state_watchdog_compares_previous_state :
    _set_state sessionIdent LSState.LSSTATE_WAIT_VERS (some 10)
      = ({ sessionIdent with state := some LSState.LSSTATE_WAIT_VERS },
         [Effect.armCheck (GuardCond.stateEq (some LSState.LSSTATE_WAIT_IDENT))
           "LSSTATE_WAIT_VERS" 10])
    ∧ _check_protocol_timeout { sessionIdent with state := some LSState.LSSTATE_WAIT_VERS }
        (GuardCond.stateEq (some LSState.LSSTATE_WAIT_IDENT)) "LSSTATE_WAIT_VERS"
      = ({ sessionIdent with state := some LSState.LSSTATE_WAIT_VERS }, []) := by
  simp [_set_state, _check_protocol_timeout, evalGuard, sessionIdent, outlet0,
    LSState.pyName, pyMax]

/-- C2 (code bug evidence): a RUNNING session with one buffered stderr byte
whose child already reported stderr end-of-stream sends the final chunk
with the end-of-stream flag false (the code tests emptiness of the
dequeued chunk, which is nonempty whenever the branch is entered and
mdu exceeds 16), leaves stderrEofSent false, and a further pump call sends
nothing — so the end-of-stream flag is never sent, contradicting the
claim. -/
theorem pump_stderr_final_chunk_has_no_eof :
    pump env0 sessionStderr1
      = ({ sessionStderr1 with stderr_buf := [] },
         [Effect.sendMsg (Message.StreamDataMessage STREAM_ID_STDERR [97] false)], true)
    ∧ ({ sessionStderr1 with stderr_buf := [] } : Session).stderr_eof_sent = false
    ∧ pump env0 { sessionStderr1 with stderr_buf := [] }
      = ({ sessionStderr1 with stderr_buf := [] }, [], false) := by
  decide

/-- C3 counterexample: with the remote-command-as-arguments policy, a
remote command of one token appended to the default command ["bash"]
leaves the shared default command line as ["bash", "ls"] — the session
mutated the process-wide default in place. -/
theorem start_cmd_mutates_default_command_cex :
    cfgArgs.default_command = ["bash"]
    ∧ (_start_cmd cfgArgs sessionRun1 (some ["ls"]) false false false none none
        0 0 0 0 true).2.1.default_command = ["bash", "ls"] := by
  decide

/-- C4 counterexample: a WAIT_IDENT session whose identity-confirmed
callback delivers a disallowed identity (allow-all off, empty allow-list)
does send the "Identity is not allowed." error, but the handler continues:
the state becomes WAIT_VERS, the remote identity is recorded and the
packet-received callback is registered — contradicting the claim's three
"does not" parts. -/
theorem initiator_identified_rejected_still_advances_cex :
    Effect.sendMsg (Message.ErrorMessage "Identity is not allowed." true)
        ∈ (_initiator_identified cfgStrict sessionIdent true ⟨5⟩).2
    ∧ (_initiator_identified cfgStrict sessionIdent true ⟨5⟩).1.state
        = some LSState.LSSTATE_WAIT_VERS
    ∧ (_initiator_identified cfgStrict sessionIdent true ⟨5⟩).1.remote_identity = some ⟨5⟩
    ∧ (_initiator_identified cfgStrict sessionIdent true ⟨5⟩).1.packet_callback_set = true := by
  decide

/-- C5 counterexample: a RUNNING session receiving a version-info message
(neither window-size, stream-data nor no-op) leaves the session unchanged
with no effects — no terminate, no transition to ERROR — contradicting the
claim that this is a protocol violation. -/
theorem handle_message_running_ignores_version_info_cex :
    _handle_message cfgStrict sessionRun0 (Message.VersionInfoMessage "x" 1) true
      = (sessionRun0, cfgStrict, [])
    ∧ sessionRun0.state = some LSState.LSSTATE_RUNNING := by
  decide

/-- C6 counterexample: calling terminate with an error reason on a session
already in ERROR sends the fatal error message to the peer again (the
send is skipped only in TEARDOWN), contradicting the claim that a second
terminate has no further observable effect. -/
theorem terminate_in_error_state_resends_error_cex :
    sessionErr.state = some LSState.LSSTATE_ERROR
    ∧ Effect.sendMsg (Message.ErrorMessage "boom" true)
        ∈ (terminate sessionErr (some "boom")).2 := by
  decide

/-- C8 counterexample: a pump call on a RUNNING session with drained
buffers and a known, unsent return code sends the command-exited message
yet returns false — contradicting the claim that pump returns true
whenever it performed an outbound unit of work. -/
theorem pump_command_exited_returns_false_cex :
    Effect.sendMsg (Message.CommandExitedMessage 0) ∈ (pump env0 sessionExited).2.1
    ∧ (pump env0 sessionExited).2.2 = false := by
  decide

/-- C10: pump never propagates an exception from its body: whenever the
try-block body raises (Except.error in the model, carrying the partially
mutated session), pump catches it and returns that session, no effects,
and false. -/
theorem pump_catches_body_exceptions (env : PumpEnv) (s : Session)
    (sp : Session) (msg : String)
    (h : pumpBody env s = Except.error (sp, msg)) :
    pump env s = (sp, [], false) := by
  unfold pump
  rw [h]

/-- C10 witness: with a Messenger whose send raises, pumping the concrete
stderr-laden RUNNING session hits the raising send after dequeuing the
buffer, and the call returns the partially mutated session with false. -/
theorem pump_catches_body_exceptions_witness :
    pump envSendFail sessionStderr1 = ({ sessionStderr1 with stderr_buf := [] }, [], false) :=
  pump_catches_body_exceptions envSendFail sessionStderr1
    { sessionStderr1 with stderr_buf := [] } "send raised" rfl

/-- C3 (amended): across every execute-command resolution, the shared
default command line is left unchanged except when the
remote-command-as-arguments policy is active, remote commands are allowed
and a nonempty remote command line was supplied, in which case the remote
tokens are appended to the shared default in place. -/
theorem start_cmd_default_command_characterization
    (cfg : Config) (s : Session) (cmdline : Option (List String))
    (a b c : Bool) (tc : Option (List Nat)) (t : Option String)
    (rows cols hpix vpix : Int) (ok : Bool) :
    (_start_cmd cfg s cmdline a b c tc t rows cols hpix vpix ok).2.1.default_command
      = if cfg.remote_cmd_as_args ∧ cfg.allow_remote_command ∧ cmdlineTruthy cmdline
        then cfg.default_command ++ cmdline.getD []
        else cfg.default_command := by
  unfold _start_cmd
  cases h1 : cfg.allow_remote_command <;> cases h2 : cmdlineTruthy cmdline <;>
    cases h3 : cfg.remote_cmd_as_args <;> cases h4 : ok <;>
      simp [h1, h2, h3, h4, terminate, _set_window_size]

/-- C4 (amended): a WAIT_IDENT session receiving a disallowed identity
(allow-all off, hash outside the allow-list) does invoke terminate with
reason "Identity is not allowed." — the fatal error message is sent — but
the handler continues: the remote identity is recorded, the
packet-received callback is registered and the state is set to WAIT_VERS;
only the already-scheduled prune later tears the session down. -/
theorem initiator_identified_rejection_continues
    (cfg : Config) (s : Session) (i : Identity)
    (hst : s.state = some LSState.LSSTATE_WAIT_IDENT)
    (hall : cfg.allow_all = false)
    (hmem : i.hash ∉ cfg.allowed_identity_hashes) :
    Effect.sendMsg (Message.ErrorMessage "Identity is not allowed." true)
        ∈ (_initiator_identified cfg s true i).2
    ∧ (_initiator_identified cfg s true i).1.state = some LSState.LSSTATE_WAIT_VERS
    ∧ (_initiator_identified cfg s true i).1.remote_identity = some i
    ∧ (_initiator_identified cfg s true i).1.packet_callback_set = true := by
  unfold _initiator_identified
  simp [hst, hall, hmem, terminate, _set_state, _terminate_process]

/-- C4 witness: concrete instantiation of the amended rejection behavior at
the strict configuration and identity hash 7. -/
theorem initiator_identified_rejection_continues_witness :
    Effect.sendMsg (Message.ErrorMessage "Identity is not allowed." true)
        ∈ (_initiator_identified cfgStrict sessionIdent true ⟨7⟩).2
    ∧ (_initiator_identified cfgStrict sessionIdent true ⟨7⟩).1.state
        = some LSState.LSSTATE_WAIT_VERS
    ∧ (_initiator_identified cfgStrict sessionIdent true ⟨7⟩).1.remote_identity = some ⟨7⟩
    ∧ (_initiator_identified cfgStrict sessionIdent true ⟨7⟩).1.packet_callback_set = true :=
  initiator_identified_rejection_continues cfgStrict sessionIdent ⟨7⟩ rfl rfl
    (by simp [cfgStrict])

/-- C5 (amended): a RUNNING session receiving a message that is neither
window-size, stream-data nor no-op silently ignores it: the session, the
configuration and the effect trace are all unchanged (no protocol error,
no transition to ERROR). -/
theorem handle_message_running_ignores_unhandled
    (cfg : Config) (s : Session) (m : Message) (ok : Bool)
    (hst : s.state = some LSState.LSSTATE_RUNNING)
    (hm : runningHandles m = false) :
    _handle_message cfg s m ok = (s, cfg, []) := by
  unfold _handle_message
  cases m <;> simp_all [runningHandles]

/-- C5 witness: a RUNNING session ignores a (duplicate) execute-command
message. -/
theorem handle_message_running_ignores_unhandled_witness :
    _handle_message cfgStrict sessionRun0
        (Message.ExecuteCommandMesssage none false false false none none 0 0 0 0) true
      = (sessionRun0, cfgStrict, []) :=
  handle_message_running_ignores_unhandled cfgStrict sessionRun0
    (Message.ExecuteCommandMesssage none false false false none none 0 0 0 0) true rfl rfl

/-- C6 (amended): terminate on a TEARDOWN session sends no further
message; terminate on an ERROR session with a nonempty reason sends the
fatal error message to the peer again; re-running prune after the session
has already been removed leaves the registry unchanged (the suppressed
ValueError makes the second removal a no-op) while the Outlet teardown
call is issued again. -/
theorem terminate_repeat_behavior
    (s : Session) (e : String) (s2 : Session) (e2 : String) (sessions : List Session)
    (h1 : s.state = some LSState.LSSTATE_TEARDOWN)
    (h2 : s2.state = some LSState.LSSTATE_ERROR) (h2e : e2 ≠ "")
    (h3 : ({ s with state := some LSState.LSSTATE_TEARDOWN } : Session) ∉ sessions) :
    (∀ m, Effect.sendMsg m ∉ (terminate s (some e)).2)
    ∧ Effect.sendMsg (Message.ErrorMessage e2 true) ∈ (terminate s2 (some e2)).2
    ∧ (_prune s sessions).2.1 = sessions
    ∧ Effect.teardownOutlet ∈ (_prune s sessions).2.2 := by
  refine ⟨?_, ?_, ?_, ?_⟩
  · intro m
    simp [terminate, h1, _terminate_process]
    cases hp : s.process with
    | none => simp
    | some p => cases hpr : p.running <;> simp
  · simp [terminate, h2, h2e]
  · simp [_prune, List.erase_of_not_mem h3]
  · simp [_prune]

/-- C6 witness: concrete instantiation with a TEARDOWN session, an ERROR
session and an empty registry. -/
theorem terminate_repeat_behavior_witness :
    (∀ m, Effect.sendMsg m ∉ (terminate sessionDown (some "x")).2)
    ∧ Effect.sendMsg (Message.ErrorMessage "y" true) ∈ (terminate sessionErr (some "y")).2
    ∧ (_prune sessionDown []).2.1 = ([] : List Session)
    ∧ Effect.teardownOutlet ∈ (_prune sessionDown []).2.2 :=
  terminate_repeat_behavior sessionDown "x" sessionErr "y" [] rfl rfl
    (by decide) (by simp)

set_option maxHeartbeats 1000000

/-- Exhaustive shape analysis of one pump call: either nothing was sent
and the call reports false, or exactly one stderr chunk was sent (only
possible with a nonempty stderr buffer), or exactly one stdout chunk was
sent (only with an empty stderr buffer), or the command-exited message
was sent together with the post-exit watchdog arming and the call reports
false (again only with an empty stderr buffer). -/
lemma pump_cases (env : PumpEnv) (s : Session) :
    ((pump env s).2.1 = [] ∧ (pump env s).2.2 = false)
    ∨ (∃ d e, (pump env s).2 = ([Effect.sendMsg (Message.StreamDataMessage STREAM_ID_STDERR d e)], true)
        ∧ s.stderr_buf ≠ [])
    ∨ (∃ d e, (pump env s).2 = ([Effect.sendMsg (Message.StreamDataMessage STREAM_ID_STDOUT d e)], true)
        ∧ s.stderr_buf = [])
    ∨ (∃ rc del, (pump env s).2
        = ([Effect.sendMsg (Message.CommandExitedMessage rc),
            Effect.armCheck (GuardCond.stateEq (some LSState.LSSTATE_RUNNING)) "CommandExitedMessage" del], false)
        ∧ s.stderr_buf = []) := by
  rcases hb : pumpBody env s with e | r
  case error =>
    have hp : pump env s = (e.1, [], false) := by unfold pump; rw [hb]
    left
    rw [hp]
    exact ⟨rfl, rfl⟩
  case ok =>
    have hp : pump env s = r := by unfold pump; rw [hb]
    rw [hp]
    unfold pumpBody at hb
    split at hb
    · cases hb; left; exact ⟨rfl, rfl⟩
    · split at hb
      · cases hb; left; exact ⟨rfl, rfl⟩
      · split at hb
        · rename_i hlen
          simp only [] at hb
          split at hb
          · cases hb
          · split at hb
            · cases hb
            · cases hb
              right; left
              exact ⟨_, _, rfl, List.ne_nil_of_length_pos hlen⟩
        · rename_i hlen
          have hnil : s.stderr_buf = [] := by
            cases h : s.stderr_buf with
            | nil => rfl
            | cons a l => exact absurd (by simp [h]) hlen
          split at hb
          · rename_i hlen2
            simp only [] at hb
            split at hb
            · cases hb
            · split at hb
              · cases hb
              · cases hb
                right; right; left
                exact ⟨_, _, rfl, hnil⟩
          · simp only [] at hb
            split at hb
            · split at hb
              · split at hb
                · cases hb
                · cases hb
                  right; right; right
                  exact ⟨_, _, rfl, hnil⟩
              · cases hb; left; exact ⟨rfl, rfl⟩
            · cases hb; left; exact ⟨rfl, rfl⟩

/-- C7: every pump call sends at most one message; nothing is sent when
the session is not RUNNING or the Messenger reports the outlet not ready;
and no stdout chunk is sent in a call at whose start the stderr buffer is
nonempty. -/
theorem pump_at_most_one_send (env : PumpEnv) (s : Session) :
    sendCount (pump env s).2.1 ≤ 1
    ∧ (s.state ≠ some LSState.LSSTATE_RUNNING → (pump env s).2.1 = [])
    ∧ (env.is_outlet_ready = false → (pump env s).2.1 = [])
    ∧ (s.stderr_buf ≠ [] → sendsStdoutChunk (pump env s).2.1 = false) := by
  refine ⟨?_, ?_, ?_, ?_⟩
  · rcases pump_cases env s with ⟨h, _⟩ | ⟨d, e, h, _⟩ | ⟨d, e, h, _⟩ | ⟨rc, del, h, _⟩ <;>
      rw [h] <;> simp [sendCount, isSendEffect]
  · intro h
    unfold pump pumpBody
    rw [if_pos h]
  · intro h
    unfold pump pumpBody
    by_cases hs : s.state ≠ some LSState.LSSTATE_RUNNING
    · rw [if_pos hs]
    · rw [if_neg hs, if_pos (by simp [h])]
  · intro hne
    rcases pump_cases env s with ⟨h, _⟩ | ⟨d, e, h, _⟩ | ⟨d, e, h, hnil⟩ | ⟨rc, del, h, hnil⟩
    · rw [h]; rfl
    · rw [h]; simp [sendsStdoutChunk, STREAM_ID_STDERR, STREAM_ID_STDOUT]
    · exact absurd hnil hne
    · exact absurd hnil hne

/-- C7 witness: a WAIT_CMD session with buffered stderr pumped while the
outlet is not ready sends nothing, trivially satisfying every conjunct. -/
theorem pump_at_most_one_send_witness :
    sendCount (pump envNotReady sessionCmdBuf).2.1 ≤ 1
    ∧ (pump envNotReady sessionCmdBuf).2.1 = []
    ∧ (pump envNotReady sessionCmdBuf).2.1 = []
    ∧ sendsStdoutChunk (pump envNotReady sessionCmdBuf).2.1 = false :=
  ⟨(pump_at_most_one_send envNotReady sessionCmdBuf).1,
   (pump_at_most_one_send envNotReady sessionCmdBuf).2.1 (by decide),
   (pump_at_most_one_send envNotReady sessionCmdBuf).2.2.1 rfl,
   (pump_at_most_one_send envNotReady sessionCmdBuf).2.2.2 (by decide)⟩

/-- C8 (amended): the boolean pump returns is true precisely when the call
sent a stream-data chunk (stderr or stdout); in particular the
command-exited send reports false. -/
theorem pump_returns_true_iff_stream_chunk_sent (env : PumpEnv) (s : Session) :
    (pump env s).2.2 = sendsStreamChunk (pump env s).2.1 := by
  rcases pump_cases env s with ⟨h1, h2⟩ | ⟨d, e, h, _⟩ | ⟨d, e, h, _⟩ | ⟨rc, del, h, _⟩
  · rw [h1, h2]; rfl
  · rw [h]; simp [sendsStreamChunk]
  · rw [h]; simp [sendsStreamChunk]
  · rw [h]; simp [sendsStreamChunk]

/-- C9: a WAIT_CMD session with remote commands disallowed that receives
an execute-command message whose command line is empty is not terminated:
it transitions to RUNNING, the shared default command is unchanged, the
process is started with exactly the default command line, and no error
message or prune is produced. -/
theorem handle_message_empty_cmdline_runs_default
    (cfg : Config) (s : Session) (a b c : Bool) (tc : Option (List Nat))
    (t : Option String) (rows cols hpix vpix : Int)
    (harc : cfg.allow_remote_command = false)
    (hst : s.state = some LSState.LSSTATE_WAIT_CMD) :
    (_handle_message cfg s (Message.ExecuteCommandMesssage (some []) a b c tc t rows cols hpix vpix) true).1.state
        = some LSState.LSSTATE_RUNNING
    ∧ (_handle_message cfg s (Message.ExecuteCommandMesssage (some []) a b c tc t rows cols hpix vpix) true).2.1 = cfg
    ∧ Effect.startProcess cfg.default_command
        ∈ (_handle_message cfg s (Message.ExecuteCommandMesssage (some []) a b c tc t rows cols hpix vpix) true).2.2
    ∧ (∀ m, Effect.sendMsg m
        ∉ (_handle_message cfg s (Message.ExecuteCommandMesssage (some []) a b c tc t rows cols hpix vpix) true).2.2)
    ∧ (∀ d, Effect.schedulePrune d
        ∉ (_handle_message cfg s (Message.ExecuteCommandMesssage (some []) a b c tc t rows cols hpix vpix) true).2.2) := by
  unfold _handle_message
  simp [hst, harc, _set_state, _start_cmd, cmdlineTruthy, _set_window_size]

/-- C9 witness: concrete instantiation at the strict configuration and a
24x80 terminal. -/
theorem handle_message_empty_cmdline_runs_default_witness :
    (_handle_message cfgStrict sessionCmd
        (Message.ExecuteCommandMesssage (some []) false false false none none 24 80 0 0) true).1.state
        = some LSState.LSSTATE_RUNNING
    ∧ (_handle_message cfgStrict sessionCmd
        (Message.ExecuteCommandMesssage (some []) false false false none none 24 80 0 0) true).2.1 = cfgStrict
    ∧ Effect.startProcess cfgStrict.default_command
        ∈ (_handle_message cfgStrict sessionCmd
            (Message.ExecuteCommandMesssage (some []) false false false none none 24 80 0 0) true).2.2
    ∧ (∀ m, Effect.sendMsg m
        ∉ (_handle_message cfgStrict sessionCmd
            (Message.ExecuteCommandMesssage (some []) false false false none none 24 80 0 0) true).2.2)
    ∧ (∀ d, Effect.schedulePrune d
        ∉ (_handle_message cfgStrict sessionCmd
            (Message.ExecuteCommandMesssage (some []) false false false none none 24 80 0 0) true).2.2) :=
  handle_message_empty_cmdline_runs_default cfgStrict sessionCmd false false false none none
    24 80 0 0 rfl rfl

end Rnsh
